import Mathlib

/-!
Verification of the beach-party multi-agent demo.

Shallow embedding of:
- `beach_agent/agent.py` (`BeachAgent._search_web`, `BeachAgent.ainvoke`,
  `BeachAgent.stream`),
- `beach_agent/__main__.py` (`local_beach_search`, the provisioning part of
  `app_lifespan`),
- `planner_agent/agent.py` (`PlannerAgent.stream`).

Python strings are modelled as Lean `String` (as `List Char` for the
fallback-search component, where substring reasoning is needed); the
language-model backend is an opaque collaborator modelled as functions from
prompt to outcome, where an outcome is either a value or a raised exception
(`Except`), and a streamed call is the list of chunks delivered before the
iterator either finishes normally or raises.
-/

/-- A langchain message `content` field: a string, a structured list payload,
or absent/None.  Python truthiness and `isinstance(…, str)` are modelled
explicitly below. -/
inductive MsgContent
  | str (s : String)
  | parts (xs : List String)
  | nothing
deriving DecidableEq

/-- Python truthiness of a `content` value (`if ai_msg.content`). -/
def contentTruthy : MsgContent → Bool
  | MsgContent.str s => !s.isEmpty
  | MsgContent.parts xs => !xs.isEmpty
  | MsgContent.nothing => false

/-- Python `isinstance(content, str)`. -/
def contentIsStr : MsgContent → Bool
  | MsgContent.str _ => true
  | _ => false

/-- The string carried by a string-typed `content` value. -/
def contentText : MsgContent → String
  | MsgContent.str s => s
  | _ => ""

/-- Outcome of one backend streamed call (`self.model.astream(prompt)`):
the chunks delivered before the iterator stops, and whether it stopped by
raising (`fails = true`) or by normal exhaustion (`fails = false`). -/
structure StreamOutcome where
  chunks : List MsgContent
  fails : Bool
deriving DecidableEq

/-- The opaque Gemini backend (`self.model`): `ainvoke` for single-shot calls
(may raise, modelled as `Except.error`), `astream` for streamed calls. -/
structure Backend where
  ainvoke : String → Except String MsgContent
  astream : String → StreamOutcome

/-- The event dict yielded by `BeachAgent` (`is_task_complete`,
`require_user_input`, `content`). -/
structure TaskEvent where
  is_task_complete : Bool
  require_user_input : Bool
  content : MsgContent
deriving DecidableEq

/-- `BeachAgent.SYSTEM_INSTRUCTION`. -/
def SYSTEM_INSTRUCTION : String :=
  "You are a specialized assistant for beach information. Use the provided web search results to respond accurately."

/-- Head of the Gemini web-search prompt in `BeachAgent._search_web`. -/
def searchPromptHead : String :=
  "\nあなたは、優秀なビーチ情報アシスタントです。以下のクエリに基づいて、インターネットを検索し、関連する情報を収集してください。\nクエリ: "

/-- Tail of the Gemini web-search prompt in `BeachAgent._search_web`. -/
def searchPromptTail : String :=
  "\nあなたの回答は、ビーチに関する情報を提供することに焦点を当ててください。\nあまり熟考せず、迅速に検索結果をまとめてください。\n                "

/-- The `search_prompt` f-string built in `BeachAgent._search_web`. -/
def search_prompt (query : String) : String :=
  searchPromptHead ++ (query ++ searchPromptTail)

/-- `BeachAgent._search_web`: call the backend on the search prompt; on any
exception return `""`; on success return the content only when it is truthy
and a string, else `""`. -/
def searchWeb (be : Backend) (query : String) : String :=
  match be.ainvoke (search_prompt query) with
  | Except.ok c => if contentTruthy c && contentIsStr c then contentText c else ""
  | Except.error _ => ""

/-- The prompt f-string built in `BeachAgent.ainvoke` (lines 80-84). -/
def ainvokePrompt (web_results query : String) : String :=
  SYSTEM_INSTRUCTION ++ ("\nWeb results:\n" ++ (web_results ++ ("\nAnswer the question: " ++ query)))

/-- The prompt f-string built in `BeachAgent.stream` (lines 106-110),
written out separately because the source duplicates the lines. -/
def streamPrompt (web_results query : String) : String :=
  SYSTEM_INSTRUCTION ++ ("\nWeb results:\n" ++ (web_results ++ ("\nAnswer the question: " ++ query)))

/-- The try/except of `BeachAgent.ainvoke`: map the backend outcome to the
returned event dict. -/
def ainvokeStep (r : Except String MsgContent) : TaskEvent :=
  match r with
  | Except.ok c => TaskEvent.mk true false c
  | Except.error _ => TaskEvent.mk true false (MsgContent.str "Failed to retrieve information.")

/-- `BeachAgent.ainvoke`. -/
def BeachAgent.ainvoke (be : Backend) (query sessionId : String) : TaskEvent :=
  let web_results := searchWeb be query
  let prompt := ainvokePrompt web_results query
  ainvokeStep (be.ainvoke prompt)

/-- The try/except of `BeachAgent.stream`: one partial event per truthy
chunk, then the terminal event — empty content on normal exhaustion, the
fixed error message when the iterator raised. -/
def streamStep (out : StreamOutcome) : List TaskEvent :=
  (out.chunks.filter contentTruthy).map (fun c => TaskEvent.mk false false c) ++
    [if out.fails then TaskEvent.mk true false (MsgContent.str "Streaming error occurred.")
     else TaskEvent.mk true false (MsgContent.str "")]

/-- `BeachAgent.stream`, as the finite list of events the generator yields. -/
def BeachAgent.stream (be : Backend) (query sessionId : String) : List TaskEvent :=
  let web_results := searchWeb be query
  let prompt := streamPrompt web_results query
  streamStep (be.astream prompt)

/-- C3: for every backend, query and session identifier, `BeachAgent.ainvoke`
returns exactly one `TaskEvent` and that event has `is_task_complete = true`,
whether the backend call succeeds or raises. -/
theorem beach_ainvoke_terminal (be : Backend) (query sessionId : String) :
    (BeachAgent.ainvoke be query sessionId).is_task_complete = true := by
  show (ainvokeStep (be.ainvoke (ainvokePrompt (searchWeb be query) query))).is_task_complete = true
  unfold ainvokeStep
  cases be.ainvoke (ainvokePrompt (searchWeb be query) query) <;> rfl

/-- A backend whose every call raises. -/
def failBackend : Backend :=
  { ainvoke := fun _ => Except.error "boom"
    astream := fun _ => StreamOutcome.mk [] true }

theorem beach_ainvoke_terminal_witness :
    (BeachAgent.ainvoke failBackend "find a beach" "s1").is_task_complete = true :=
  beach_ainvoke_terminal failBackend "find a beach" "s1"

/-- C4: if the backend's single-shot call on the combined prompt raises,
`BeachAgent.ainvoke` returns a terminal event (`is_task_complete = true`,
`require_user_input = false`) whose content is the fixed string
"Failed to retrieve information."; no exception reaches the caller. -/
theorem beach_ainvoke_failure_message (be : Backend) (query sessionId e : String)
    (h : be.ainvoke (ainvokePrompt (searchWeb be query) query) = Except.error e) :
    BeachAgent.ainvoke be query sessionId =
      TaskEvent.mk true false (MsgContent.str "Failed to retrieve information.") := by
  show ainvokeStep (be.ainvoke (ainvokePrompt (searchWeb be query) query)) =
    TaskEvent.mk true false (MsgContent.str "Failed to retrieve information.")
  rw [h]
  rfl

theorem beach_ainvoke_failure_message_witness :
    failBackend.ainvoke (ainvokePrompt (searchWeb failBackend "q" ) "q") = Except.error "boom" ∧
      BeachAgent.ainvoke failBackend "q" "s" =
        TaskEvent.mk true false (MsgContent.str "Failed to retrieve information.") :=
  ⟨rfl, beach_ainvoke_failure_message failBackend "q" "s" "boom" rfl⟩

/-- C1: for every backend, query and session identifier, the event list of
`BeachAgent.stream` is zero or more events with `is_task_complete = false`
followed by exactly one final event with `is_task_complete = true`, and when
the backend's chunk iterator is exhausted without raising the final event's
content is the empty string. -/
theorem beach_stream_event_sequence (be : Backend) (query sessionId : String) :
    ∃ ps t, BeachAgent.stream be query sessionId = ps ++ [t] ∧
      (∀ e ∈ ps, e.is_task_complete = false) ∧
      t.is_task_complete = true ∧
      ((be.astream (streamPrompt (searchWeb be query) query)).fails = false →
        t.content = MsgContent.str "") := by
  show ∃ ps t, streamStep (be.astream (streamPrompt (searchWeb be query) query)) = ps ++ [t] ∧ _
  set out := be.astream (streamPrompt (searchWeb be query) query) with hout
  refine ⟨(out.chunks.filter contentTruthy).map (fun c => TaskEvent.mk false false c),
    if out.fails then TaskEvent.mk true false (MsgContent.str "Streaming error occurred.")
      else TaskEvent.mk true false (MsgContent.str ""), rfl, ?_, ?_, ?_⟩
  · intro e he
    rcases List.mem_map.mp he with ⟨c, _, hc⟩
    rw [← hc]
  · cases h : out.fails <;> simp [h]
  · intro h
    simp [h]

/-- A backend with a two-chunk successful stream (one truthy chunk, one empty
chunk) and a successful single-shot call. -/
def okBackend : Backend :=
  { ainvoke := fun _ => Except.ok (MsgContent.str "sunny")
    astream := fun _ => StreamOutcome.mk [MsgContent.str "Bondi", MsgContent.str ""] false }

theorem beach_stream_event_sequence_witness :
    ∃ ps t, BeachAgent.stream okBackend "q" "s" = ps ++ [t] ∧
      (∀ e ∈ ps, e.is_task_complete = false) ∧
      t.is_task_complete = true ∧
      ((okBackend.astream (streamPrompt (searchWeb okBackend "q") "q")).fails = false →
        t.content = MsgContent.str "") :=
  beach_stream_event_sequence okBackend "q" "s"

/-- A backend whose streamed call delivers one chunk with empty (falsy)
content and then raises. -/
def emptyChunkFailBackend : Backend :=
  { ainvoke := fun _ => Except.error "boom"
    astream := fun _ => StreamOutcome.mk [MsgContent.str ""] true }

/-- C2 counterexample: against a backend whose streamed call raises after
emitting one chunk (whose content is the empty string), `BeachAgent.stream`
does NOT yield one partial event per emitted chunk followed by the error
terminal, as the claim states for N = 1: it yields the error terminal alone,
because the falsy chunk is filtered out. -/
theorem beach_stream_exact_chunks_counterexample :
    (emptyChunkFailBackend.astream
        (streamPrompt (searchWeb emptyChunkFailBackend "q") "q")).fails = true ∧
    (emptyChunkFailBackend.astream
        (streamPrompt (searchWeb emptyChunkFailBackend "q") "q")).chunks.length = 1 ∧
    BeachAgent.stream emptyChunkFailBackend "q" "s" =
      [TaskEvent.mk true false (MsgContent.str "Streaming error occurred.")] ∧
    BeachAgent.stream emptyChunkFailBackend "q" "s" ≠
      ((emptyChunkFailBackend.astream
          (streamPrompt (searchWeb emptyChunkFailBackend "q") "q")).chunks.map
        (fun c => TaskEvent.mk false false c)) ++
      [TaskEvent.mk true false (MsgContent.str "Streaming error occurred.")] := by
  refine ⟨rfl, rfl, rfl, ?_⟩
  decide

/-- C2 as amended: if the backend's streamed call raises after emitting its
chunks, `BeachAgent.stream` yields one partial event (`is_task_complete =
false`) for each chunk with truthy (non-empty) content, contents matching in
arrival order, followed by exactly one terminal event with the fixed message
"Streaming error occurred."; no exception reaches the caller. -/
theorem beach_stream_error_terminal (be : Backend) (query sessionId : String)
    (h : (be.astream (streamPrompt (searchWeb be query) query)).fails = true) :
    BeachAgent.stream be query sessionId =
      ((be.astream (streamPrompt (searchWeb be query) query)).chunks.filter
          contentTruthy).map (fun c => TaskEvent.mk false false c) ++
        [TaskEvent.mk true false (MsgContent.str "Streaming error occurred.")] := by
  show streamStep (be.astream (streamPrompt (searchWeb be query) query)) = _
  unfold streamStep
  rw [h]
  simp

theorem beach_stream_error_terminal_witness :
    (emptyChunkFailBackend.astream
        (streamPrompt (searchWeb emptyChunkFailBackend "q") "q")).fails = true ∧
    BeachAgent.stream emptyChunkFailBackend "q" "s" =
      ((emptyChunkFailBackend.astream
          (streamPrompt (searchWeb emptyChunkFailBackend "q") "q")).chunks.filter
        contentTruthy).map (fun c => TaskEvent.mk false false c) ++
      [TaskEvent.mk true false (MsgContent.str "Streaming error occurred.")] :=
  ⟨rfl, beach_stream_error_terminal emptyChunkFailBackend "q" "s" rfl⟩

/-- C7: if the backend call inside `BeachAgent._search_web` raises, the
retrieved context is the empty string, the failure is absorbed inside
`_search_web`, and both entry points proceed to their backend invocation on
the prompt built from the empty context. -/
theorem search_web_failure_recovered (be : Backend) (query sessionId e : String)
    (h : be.ainvoke (search_prompt query) = Except.error e) :
    searchWeb be query = "" ∧
    BeachAgent.ainvoke be query sessionId = ainvokeStep (be.ainvoke (ainvokePrompt "" query)) ∧
    BeachAgent.stream be query sessionId = streamStep (be.astream (streamPrompt "" query)) := by
  have hsw : searchWeb be query = "" := by
    unfold searchWeb
    rw [h]
  refine ⟨hsw, ?_, ?_⟩
  · show ainvokeStep (be.ainvoke (ainvokePrompt (searchWeb be query) query)) = _
    rw [hsw]
  · show streamStep (be.astream (streamPrompt (searchWeb be query) query)) = _
    rw [hsw]

theorem search_web_failure_recovered_witness :
    failBackend.ainvoke (search_prompt "q") = Except.error "boom" ∧
    (searchWeb failBackend "q" = "" ∧
      BeachAgent.ainvoke failBackend "q" "s" =
        ainvokeStep (failBackend.ainvoke (ainvokePrompt "" "q")) ∧
      BeachAgent.stream failBackend "q" "s" =
        streamStep (failBackend.astream (streamPrompt "" "q"))) :=
  ⟨rfl, search_web_failure_recovered failBackend "q" "s" "boom" rfl⟩

/-- C8: for the same retrieved context and query, `BeachAgent.ainvoke` and
`BeachAgent.stream` build equal prompts, and that prompt is the fixed system
instruction, then the supplementary context, then the query, in that order. -/
theorem beach_prompts_agree (web_results query : String) :
    ainvokePrompt web_results query = streamPrompt web_results query ∧
    ∃ s t, ainvokePrompt web_results query =
      SYSTEM_INSTRUCTION ++ (s ++ (web_results ++ (t ++ query))) :=
  ⟨rfl, "\nWeb results:\n", "\nAnswer the question: ", rfl⟩

/-- C10: whenever the search backend responds without raising but with a
content value that is falsy or not a string, `BeachAgent._search_web`
returns the empty string, so the supplementary context used in the prompt is
empty. -/
theorem search_web_unusable_content (be : Backend) (query : String) (c : MsgContent)
    (h : be.ainvoke (search_prompt query) = Except.ok c)
    (hc : contentTruthy c = false ∨ contentIsStr c = false) :
    searchWeb be query = "" := by
  unfold searchWeb
  rw [h]
  rcases hc with hc | hc <;> simp [hc]

/-- A backend whose search response carries a structured (non-string) payload. -/
def partsBackend : Backend :=
  { ainvoke := fun _ => Except.ok (MsgContent.parts ["structured"])
    astream := fun _ => StreamOutcome.mk [] false }

theorem search_web_unusable_content_witness :
    partsBackend.ainvoke (search_prompt "q") = Except.ok (MsgContent.parts ["structured"]) ∧
    (contentTruthy (MsgContent.parts ["structured"]) = false ∨
      contentIsStr (MsgContent.parts ["structured"]) = false) ∧
    searchWeb partsBackend "q" = "" :=
  ⟨rfl, Or.inr rfl,
    search_web_unusable_content partsBackend "q" (MsgContent.parts ["structured"]) rfl (Or.inr rfl)⟩

/-- A provisioned tool: the local fallback `local_beach_search` or a live
MCP tool identified by name. -/
inductive Tool
  | local_search
  | live (name : String)
deriving DecidableEq

/-- The provisioning outcome recorded in the process-wide `app_context`:
`context["using_fallback_tools"]` and `context["mcp_tools"]`. -/
structure ProvisioningState where
  using_fallback_tools : Bool
  mcp_tools : List Tool
deriving DecidableEq

/-- The external MCP world as `app_lifespan` observes it: whether
`MultiServerMCPClient(SERVER_CONFIGS)` constructs without raising, and the
outcome of `get_tools()` when it is reached. -/
structure McpEnv where
  client_ok : Bool
  get_tools : Except String (List Tool)

/-- The provisioning try/except of `app_lifespan` (`beach_agent/__main__.py`
lines 89-112): an exception anywhere, or zero tools (which raises
`ValueError`), lands in the handler that substitutes
`[local_beach_search]` and sets `using_fallback_tools = True`; otherwise the
live tools are recorded with `using_fallback_tools = False`. -/
def app_provision (env : McpEnv) : ProvisioningState :=
  if env.client_ok then
    match env.get_tools with
    | Except.ok ts =>
      if ts.isEmpty then ProvisioningState.mk true [Tool.local_search]
      else ProvisioningState.mk false ts
    | Except.error _ => ProvisioningState.mk true [Tool.local_search]
  else ProvisioningState.mk true [Tool.local_search]

/-- C5: if tool provisioning raises anywhere (client construction or
`get_tools`) or returns zero tools, the recorded state has
`using_fallback_tools = true` and exactly the one-element tool list holding
the local fallback tool; on success with at least one tool, the live tool
list is recorded with `using_fallback_tools = false`. -/
theorem provisioning_fallback (env : McpEnv) :
    ((env.client_ok = false ∨ (∃ e, env.get_tools = Except.error e) ∨
        env.get_tools = Except.ok []) →
      app_provision env = ProvisioningState.mk true [Tool.local_search]) ∧
    (∀ ts, ts ≠ [] → env.client_ok = true → env.get_tools = Except.ok ts →
      app_provision env = ProvisioningState.mk false ts) := by
  constructor
  · intro h
    cases hc : env.client_ok with
    | false => simp [app_provision, hc]
    | true =>
      rcases h with h | ⟨e, h⟩ | h
      · rw [hc] at h
        cases h
      · simp [app_provision, hc, h]
      · simp [app_provision, hc, h]
  · intro ts hts hc hg
    simp [app_provision, hc, hg, hts]

theorem provisioning_fallback_witness :
    app_provision (McpEnv.mk true (Except.ok [])) =
      ProvisioningState.mk true [Tool.local_search] ∧
    app_provision (McpEnv.mk true (Except.error "connection refused")) =
      ProvisioningState.mk true [Tool.local_search] ∧
    app_provision (McpEnv.mk true (Except.ok [Tool.live "airbnb_search"])) =
      ProvisioningState.mk false [Tool.live "airbnb_search"] :=
  ⟨(provisioning_fallback (McpEnv.mk true (Except.ok []))).1 (Or.inr (Or.inr rfl)),
   (provisioning_fallback (McpEnv.mk true (Except.error "connection refused"))).1
     (Or.inr (Or.inl ⟨"connection refused", rfl⟩)),
   (provisioning_fallback (McpEnv.mk true (Except.ok [Tool.live "airbnb_search"]))).2
     [Tool.live "airbnb_search"] (List.cons_ne_nil _ _) rfl rfl⟩

/-- Python strings of the fallback-search component, as character lists so
substring reasoning is available. -/
abbrev Str := List Char

/-- Python `str.lower()` (ASCII case folding, which covers the catalog). -/
def lowerStr (s : Str) : Str := s.map Char.toLower

/-- One catalog entry of `LOCAL_BEACHES`. -/
structure BeachEntry where
  name : Str
  location : Str
  features : Str
deriving DecidableEq

/-- `LOCAL_BEACHES` from `beach_agent/__main__.py`. -/
def LOCAL_BEACHES : List BeachEntry :=
  [BeachEntry.mk "Bondi Beach".toList "Sydney, Australia".toList
      "surfing, amenities, family friendly".toList,
   BeachEntry.mk "Waikiki Beach".toList "Honolulu, Hawaii".toList
      "resort area, gentle waves".toList,
   BeachEntry.mk "Santa Monica Beach".toList "California, USA".toList
      "pier, boardwalk, great for sunset".toList]

/-- The text an entry is matched against: the f-string
`f"{name} {location} {features}"`. -/
def entrySearchText (b : BeachEntry) : Str :=
  b.name ++ (" ".toList ++ (b.location ++ (" ".toList ++ b.features)))

/-- `query_lower in f"...".lower()` for one catalog entry. -/
def entryMatches (query_lower : Str) (b : BeachEntry) : Bool :=
  decide (List.IsInfix query_lower (lowerStr (entrySearchText b)))

/-- The rendering of one match: the f-string
`f"{name} ({location}) - {features}"`. -/
def renderEntry (b : BeachEntry) : Str :=
  b.name ++ (" (".toList ++ (b.location ++ (") - ".toList ++ b.features)))

/-- Python `"\n".join`. -/
def joinNL : List Str → Str
  | [] => []
  | [x] => x
  | x :: y :: ys => x ++ ("\n".toList ++ joinNL (y :: ys))

/-- The fixed no-results message of `local_beach_search`. -/
def NO_RESULTS_MSG : Str :=
  "No local beach information found for your query.".toList

/-- `local_beach_search` from `beach_agent/__main__.py`. -/
def local_beach_search (query : Str) : Str :=
  let query_lower := lowerStr query
  let matched := LOCAL_BEACHES.filter (entryMatches query_lower)
  if matched.isEmpty then NO_RESULTS_MSG
  else joinNL (matched.map renderEntry)

/-- Case folding distributes over concatenation. -/
theorem lowerStr_append (a b : Str) : lowerStr (a ++ b) = lowerStr a ++ lowerStr b :=
  List.map_append _ a b

/-- A substring of `a` is a substring of `a ++ b`. -/
theorem within_append_right {x a : Str} (b : Str) (h : List.IsInfix x a) :
    List.IsInfix x (a ++ b) := by
  rcases h with ⟨s, t, hst⟩
  exact ⟨s, t ++ b, by rw [← hst]; simp⟩

/-- A substring of `a` is a substring of `b ++ a`. -/
theorem within_append_left {x a : Str} (b : Str) (h : List.IsInfix x a) :
    List.IsInfix x (b ++ a) := by
  rcases h with ⟨s, t, hst⟩
  exact ⟨b ++ s, t, by rw [← hst]; simp⟩

/-- Every line fed to the newline join is a substring of the joined text. -/
theorem mem_joinNL {x : Str} {l : List Str} (h : x ∈ l) :
    List.IsInfix x (joinNL l) := by
  induction l with
  | nil => cases h
  | cons a l2 ih =>
    cases l2 with
    | nil =>
      rcases List.mem_singleton.mp h with rfl
      exact ⟨[], [], by simp [joinNL]⟩
    | cons b l3 =>
      rcases List.mem_cons.mp h with rfl | h2
      · exact ⟨[], "\n".toList ++ joinNL (b :: l3), by simp [joinNL]⟩
      · exact within_append_left _ (within_append_left _ (ih h2))

/-- An entry's name opens its rendering. -/
theorem name_in_renderEntry (b : BeachEntry) : List.IsInfix b.name (renderEntry b) :=
  ⟨[], " (".toList ++ (b.location ++ (") - ".toList ++ b.features)),
    by simp [renderEntry]⟩

/-- A case-insensitive match on an individual field implies a match on the
concatenated search text the code uses. -/
theorem field_match_entry_text {ql : Str} (b : BeachEntry)
    (h : List.IsInfix ql (lowerStr b.name) ∨ List.IsInfix ql (lowerStr b.location) ∨
      List.IsInfix ql (lowerStr b.features)) :
    List.IsInfix ql (lowerStr (entrySearchText b)) := by
  unfold entrySearchText
  simp only [lowerStr_append]
  rcases h with h | h | h
  · exact within_append_right _ h
  · exact within_append_left _ (within_append_left _ (within_append_right _ h))
  · exact within_append_left _ (within_append_left _
      (within_append_left _ (within_append_left _ h)))

/-- C6: the fallback tool is a pure function of the query: a query that
case-insensitively substring-matches an entry's name, location or features
yields a result containing that entry's name; when any entry matches, the
result is the newline-joined rendering of all matching entries; and when no
entry's search text matches, the fixed no-results message is returned. -/
theorem local_beach_search_spec (query : Str) :
    (∀ b ∈ LOCAL_BEACHES,
      (List.IsInfix (lowerStr query) (lowerStr b.name) ∨
        List.IsInfix (lowerStr query) (lowerStr b.location) ∨
        List.IsInfix (lowerStr query) (lowerStr b.features)) →
      List.IsInfix b.name (local_beach_search query)) ∧
    (LOCAL_BEACHES.filter (entryMatches (lowerStr query)) ≠ [] →
      local_beach_search query =
        joinNL ((LOCAL_BEACHES.filter (entryMatches (lowerStr query))).map renderEntry)) ∧
    ((∀ b ∈ LOCAL_BEACHES, entryMatches (lowerStr query) b = false) →
      local_beach_search query = NO_RESULTS_MSG) := by
  have hbody : local_beach_search query =
      if (LOCAL_BEACHES.filter (entryMatches (lowerStr query))).isEmpty then NO_RESULTS_MSG
      else joinNL ((LOCAL_BEACHES.filter (entryMatches (lowerStr query))).map renderEntry) :=
    rfl
  refine ⟨?_, ?_, ?_⟩
  · intro b hb hfield
    have hm : entryMatches (lowerStr query) b = true :=
      decide_eq_true (field_match_entry_text b hfield)
    have hmem : b ∈ LOCAL_BEACHES.filter (entryMatches (lowerStr query)) :=
      List.mem_filter.mpr ⟨hb, hm⟩
    rw [hbody]
    cases hf : LOCAL_BEACHES.filter (entryMatches (lowerStr query)) with
    | nil => rw [hf] at hmem; cases hmem
    | cons c cs =>
      rw [hf] at hmem
      simp only [List.isEmpty_cons, Bool.false_eq_true, if_false]
      exact (name_in_renderEntry b).trans
        (mem_joinNL (List.mem_map_of_mem renderEntry hmem))
  · intro hne
    rw [hbody]
    cases hf : LOCAL_BEACHES.filter (entryMatches (lowerStr query)) with
    | nil => exact absurd hf hne
    | cons c cs => simp
  · intro hall
    have hf : LOCAL_BEACHES.filter (entryMatches (lowerStr query)) = [] := by
      rw [List.filter_eq_nil_iff]
      intro b hb
      simp [hall b hb]
    rw [hbody, hf]
    rfl

theorem local_beach_search_spec_witness :
    List.IsInfix ("Bondi Beach".toList) (local_beach_search ("bondi".toList)) :=
  (local_beach_search_spec ("bondi".toList)).1
    (BeachEntry.mk "Bondi Beach".toList "Sydney, Australia".toList
      "surfing, amenities, family friendly".toList)
    (by decide)
    (Or.inl (by decide))

/-- One value in a planner event dict: a raw chunk content or a boolean. -/
inductive JVal
  | jc (v : MsgContent)
  | jb (v : Bool)
deriving DecidableEq

/-- A planner event: the dict yielded by `PlannerAgent.stream`, kept as an
ordered key/value list so the set of fields present is provable. -/
abbrev PEvent := List (String × JVal)

/-- A langchain message for the planner model: system or human role. -/
structure PMessage where
  is_system : Bool
  content : String
deriving DecidableEq

/-- The fixed system content of `PlannerAgent.stream`. -/
def PLANNER_SYSTEM_CONTENT : String :=
  "\nあなたは、ビーチパーティーの計画を支援する専門家です。ユーザーが楽しく、現実的なビーチパーティーを計画できるように、以下の点に注意して回答してください。\n- ビーチの選択、アクティビティ、食事、飲み物、装飾、音楽など、パーティーのすべての側面を考慮してください。\n- ユーザーの予算、参加者の好み、天候、季節など、現実的な制約を考慮してください。\n- 地元の文化や習慣を尊重し、パーティーが楽しく、かつ安全であるように配慮してください。\n- ユーザーがパーティーを計画する際に役立つ具体的なアドバイスや提案を提供してください。\n                "

/-- The message list built in `PlannerAgent.stream`: the system message then
the user query. -/
def plannerMessages (query : String) : List PMessage :=
  [PMessage.mk true PLANNER_SYSTEM_CONTENT, PMessage.mk false query]

/-- Outcome of `self.model.stream(messages)`: each delivered chunk's
`content` attribute (`none` when the chunk has no such attribute), and
whether iteration ended by raising. -/
structure PStreamOutcome where
  chunks : List (Option MsgContent)
  fails : Bool

/-- The opaque planner model (`ChatOpenAI`). -/
structure PlannerBackend where
  stream : List PMessage → PStreamOutcome

/-- The loop body of `PlannerAgent.stream`: a chunk produces an event only
when it has a `content` attribute with truthy content. -/
def plannerChunkEvent (oc : Option MsgContent) : Option PEvent :=
  match oc with
  | some m =>
    if contentTruthy m then some [("content", JVal.jc m), ("done", JVal.jb false)]
    else none
  | _ => none

/-- `PlannerAgent.stream` from `planner_agent/agent.py`, as the finite list
of events the generator yields. -/
def PlannerAgent.stream (be : PlannerBackend) (query : String) : List PEvent :=
  let out := be.stream (plannerMessages query)
  out.chunks.filterMap plannerChunkEvent ++
    [if out.fails then
        [("content", JVal.jc (MsgContent.str
            "Sorry, an error occurred while processing your request.")),
          ("done", JVal.jb true)]
      else [("content", JVal.jc (MsgContent.str "")), ("done", JVal.jb true)]]

/-- C9: `PlannerAgent.stream` yields zero or more events with `done = false`,
each carrying a truthy (non-empty) chunk content, followed by exactly one
event with `done = true` whose content is the empty string when the model's
iterator is exhausted normally and the fixed apology message when it raised;
every yielded event has exactly the fields `content` and `done`, so no
`needs_input`-like field exists, and no exception reaches the caller. -/
theorem planner_stream_event_sequence (be : PlannerBackend) (query : String) :
    ∃ ps t, PlannerAgent.stream be query = ps ++ [t] ∧
      (∀ e ∈ ps, ∃ m, contentTruthy m = true ∧
        e = [("content", JVal.jc m), ("done", JVal.jb false)]) ∧
      t = [("content", JVal.jc (MsgContent.str
            (if (be.stream (plannerMessages query)).fails then
              "Sorry, an error occurred while processing your request." else ""))),
          ("done", JVal.jb true)] ∧
      (∀ e ∈ ps ++ [t], e.map Prod.fst = ["content", "done"]) := by
  set out := be.stream (plannerMessages query) with hout
  have hpartial : ∀ e ∈ out.chunks.filterMap plannerChunkEvent, ∃ m,
      contentTruthy m = true ∧
      e = [("content", JVal.jc m), ("done", JVal.jb false)] := by
    intro e he
    rcases List.mem_filterMap.mp he with ⟨oc, _, hoc⟩
    cases oc with
    | none => cases hoc
    | some m =>
      have hoc2 : (if contentTruthy m = true
          then some [("content", JVal.jc m), ("done", JVal.jb false)]
          else (Option.none : Option PEvent)) = some e := hoc
      by_cases hm : contentTruthy m = true
      · refine ⟨m, hm, ?_⟩
        rw [if_pos hm] at hoc2
        exact (Option.some_inj.mp hoc2).symm
      · rw [if_neg hm] at hoc2
        cases hoc2
  refine ⟨out.chunks.filterMap plannerChunkEvent,
    if out.fails then
        [("content", JVal.jc (MsgContent.str
            "Sorry, an error occurred while processing your request.")),
          ("done", JVal.jb true)]
      else [("content", JVal.jc (MsgContent.str "")), ("done", JVal.jb true)],
    rfl, hpartial, ?_, ?_⟩
  · cases hf : out.fails <;> simp [hf]
  · intro e he
    rcases List.mem_append.mp he with he | he
    · rcases hpartial e he with ⟨m, _, rfl⟩
      rfl
    · rcases List.mem_singleton.mp he with rfl
      cases hf : out.fails <;> simp [hf]

/-- A planner model delivering one contentful chunk, one empty chunk and one
chunk without a `content` attribute, then raising. -/
def plannerFailBackend : PlannerBackend :=
  { stream := fun _ =>
      PStreamOutcome.mk [some (MsgContent.str "Plan:"), some (MsgContent.str ""),
        Option.none] true }

theorem planner_stream_event_sequence_witness :
    ∃ ps t, PlannerAgent.stream plannerFailBackend "plan a party" = ps ++ [t] ∧
      (∀ e ∈ ps, ∃ m, contentTruthy m = true ∧
        e = [("content", JVal.jc m), ("done", JVal.jb false)]) ∧
      t = [("content", JVal.jc (MsgContent.str
            (if (plannerFailBackend.stream (plannerMessages "plan a party")).fails then
              "Sorry, an error occurred while processing your request." else ""))),
          ("done", JVal.jb true)] ∧
      (∀ e ∈ ps ++ [t], e.map Prod.fst = ["content", "done"]) :=
  planner_stream_event_sequence plannerFailBackend "plan a party"
